import Mathlib

/-!
Verification of the sampling / rate / smoothing / alerting core of the
Infinity task-manager widget (src/app.py), shallowly embedded in Lean 4.

Machine integers of the Python source are modelled as `ℕ` (cumulative
psutil counters are non-negative Python ints of unbounded size) and
`ℤ` / `ℚ` where differences and divisions occur.  psutil calls that may
raise are modelled as `Option` inputs (`none` = the call raised).
-/

namespace TaskManager

/-- Reading of `psutil.net_io_counters()`: cumulative byte counters. -/
structure NetCounters where
  bytes_sent : ℕ
  bytes_recv : ℕ
deriving Repr, DecidableEq

/-- Reading of `psutil.disk_io_counters()`: cumulative byte counters. -/
structure DiskCounters where
  read_bytes : ℕ
  write_bytes : ℕ
deriving Repr, DecidableEq

/-- Reading of `psutil.disk_usage(...)`. -/
structure DiskUsage where
  total : ℕ
  used : ℕ
  free : ℕ
  percent : ℚ
deriving Repr, DecidableEq

/-- Reading of `psutil.virtual_memory()`, as surfaced by
`SystemMonitor.get_memory_info` (src/app.py lines 169-177). -/
structure MemoryStats where
  total : ℕ
  available : ℕ
  used : ℕ
  percent : ℚ
deriving Repr, DecidableEq

/-- The `AppConfig` dataclass (src/app.py lines 46-58): plain fields with
defaults.  The dataclass has no `__post_init__` and no other validation
hook, so constructing it simply stores the given field values. -/
structure AppConfig where
  refresh_ms : ℤ := 1000
  graph_history_points : ℤ := 60
  log_level : String := "INFO"
  bg_color : String := "#202020"
  fg_color : String := "#ffffff"
  accent_color : String := "#0078d4"
  grid_color : String := "#2d2d2d"
  highlight_color : String := "#2d2d2d"
deriving Repr, DecidableEq

/-- Constructing an `AppConfig` the way `AppConfig(refresh_ms=...,
graph_history_points=...)` does in Python: the two numeric fields are
stored exactly as given (the colour/log strings keep their defaults
here); the generated dataclass `__init__` performs no range check and
can never fail. -/
def makeAppConfig (refresh_ms graph_history_points : ℤ) : AppConfig :=
  { refresh_ms := refresh_ms, graph_history_points := graph_history_points }

/-- The mutable state of `SystemMonitor` relevant to sampling
(src/app.py lines 138-153): the four history deques (all created with
`maxlen = graph_history_points`) and the previous counter readings. -/
structure MonitorState where
  config : AppConfig
  cpu_history : List ℚ
  memory_history : List ℚ
  disk_history : List ℚ
  network_history : List ℚ
  net_io_prev : NetCounters
  disk_io_prev : DiskCounters
deriving Repr, DecidableEq

/-- Python `deque.append` under `maxlen = m`: append on the right and, if
the deque already holds `m` elements, evict the oldest (leftmost); a
`maxlen = 0` deque stays empty. -/
def dequeAppend (m : ℕ) (buf : List ℚ) (v : ℚ) : List ℚ :=
  if buf.length < m then buf ++ [v] else (buf ++ [v]).drop (buf.length + 1 - m)

/-- `SystemMonitor.__init__` (src/app.py lines 138-153): each history is
`deque([0] * g, maxlen=g)` with `g = config.graph_history_points`, and
the previous counters are seeded from the first psutil readings.  Python
raises `ValueError` from `deque(maxlen=g)` when `g < 0`, modelled as
`none`. -/
def SystemMonitor.init (config : AppConfig) (net0 : NetCounters)
    (disk0 : DiskCounters) : Option MonitorState :=
  if config.graph_history_points < 0 then none
  else
    let g := config.graph_history_points.toNat
    some { config := config
           cpu_history := List.replicate g 0
           memory_history := List.replicate g 0
           disk_history := List.replicate g 0
           network_history := List.replicate g 0
           net_io_prev := net0
           disk_io_prev := disk0 }

/-- The dictionary returned by `SystemMonitor.get_network_info`. -/
structure NetworkInfo where
  sent_speed : ℤ
  recv_speed : ℤ
  total_sent : ℕ
  total_recv : ℕ
deriving Repr, DecidableEq

/-- `SystemMonitor.get_network_info` (src/app.py lines 204-224).  On
success the "speeds" are the raw differences between the current and the
previously stored cumulative counters — no division by elapsed time and
no clamping — and `net_io_prev` is replaced by the current reading.  If
the psutil call raises (`reading = none`), the bare `except:` returns
the all-zero dictionary and `net_io_prev` is left unchanged. -/
def get_network_info (s : MonitorState) (reading : Option NetCounters) :
    NetworkInfo × MonitorState :=
  match reading with
  | none =>
      ({ sent_speed := 0, recv_speed := 0, total_sent := 0, total_recv := 0 }, s)
  | some io_counters =>
      ({ sent_speed := (io_counters.bytes_sent : ℤ) - (s.net_io_prev.bytes_sent : ℤ)
         recv_speed := (io_counters.bytes_recv : ℤ) - (s.net_io_prev.bytes_recv : ℤ)
         total_sent := io_counters.bytes_sent
         total_recv := io_counters.bytes_recv },
       { s with net_io_prev := io_counters })

/-- The dictionary returned by `SystemMonitor.get_disk_info`. -/
structure DiskInfo where
  total : ℕ
  used : ℕ
  free : ℕ
  percent : ℚ
  read_speed : ℤ
  write_speed : ℤ
deriving Repr, DecidableEq

/-- `SystemMonitor.get_disk_info` (src/app.py lines 179-202).  Both
psutil calls sit inside one `try`; if either raises, the all-zero
dictionary is returned and `disk_io_prev` is unchanged.  On success the
throughput figures are raw counter differences (no division by elapsed
time, no clamping) and `disk_io_prev` is replaced. -/
def get_disk_info (s : MonitorState) (usage : Option DiskUsage)
    (io_reading : Option DiskCounters) : DiskInfo × MonitorState :=
  match usage, io_reading with
  | some disk, some io_counters =>
      ({ total := disk.total, used := disk.used, free := disk.free
         percent := disk.percent
         read_speed := (io_counters.read_bytes : ℤ) - (s.disk_io_prev.read_bytes : ℤ)
         write_speed := (io_counters.write_bytes : ℤ) - (s.disk_io_prev.write_bytes : ℤ) },
       { s with disk_io_prev := io_counters })
  | _, _ =>
      ({ total := 0, used := 0, free := 0, percent := 0
         read_speed := 0, write_speed := 0 }, s)

/-- The external psutil readings consumed during one
`SystemMonitor.update_history` cycle; `none` models the corresponding
psutil call raising an exception. -/
structure CycleReadings where
  cpu : Option ℚ
  memory : Option MemoryStats
  disk_usage : Option DiskUsage
  disk_io : Option DiskCounters
  net_io : Option NetCounters
deriving Repr, DecidableEq

/-- `SystemMonitor.update_history` (src/app.py lines 226-237).
`get_cpu_percent` and `get_memory_info` are not guarded by any
`try`/`except`, so a psutil failure there propagates out of
`update_history` (second component `some msg`), leaving in place any
deque appends already performed — Python mutates the deques in order.
`get_disk_info` and `get_network_info` swallow their own failures and
contribute zero speeds instead.  The disk and network histories receive
the combined, scaled and `min`-capped activity value computed inline in
the source. -/
def update_history (s : MonitorState) (r : CycleReadings) :
    MonitorState × Option String :=
  let g := s.config.graph_history_points.toNat
  match r.cpu with
  | none => (s, some "psutil.cpu_percent raised")
  | some cpu =>
    let s1 := { s with cpu_history := dequeAppend g s.cpu_history cpu }
    match r.memory with
    | none => (s1, some "psutil.virtual_memory raised")
    | some mem =>
      let s2 := { s1 with memory_history := dequeAppend g s1.memory_history mem.percent }
      let d := get_disk_info s2 r.disk_usage r.disk_io
      let disk_active : ℚ := ((d.1.read_speed + d.1.write_speed : ℤ) : ℚ) / (1024 * 1024)
      let s4 := { d.2 with disk_history := dequeAppend g d.2.disk_history (min 100 (disk_active * 10)) }
      let n := get_network_info s4 r.net_io
      let net_active : ℚ := ((n.1.sent_speed + n.1.recv_speed : ℤ) : ℚ) / (1024 * 1024)
      ({ n.2 with network_history := dequeAppend g n.2.network_history (min 100 (net_active * 10)) },
       none)

/-- The network value `PerformanceTab.update_data` pushes to the network
graph (src/app.py lines 619-620): the most recent element of
`network_history`, read as `network_history[-1]`. -/
def published_network_value (s : MonitorState) : Option ℚ :=
  s.network_history.getLast?

/-- Modelled from the spec: `RollingWindow.average` (spec section 4.1) —
"returns the arithmetic mean of all currently held values".  No average
over the history deques appears anywhere in src/app.py; this is the
spec-side definition, used both to settle the rolling-window claim and
to compare with what the source actually publishes. -/
def windowAverage (buf : List ℚ) : ℚ := buf.sum / (buf.length : ℚ)

/-- Alert kinds, from the spec's data model (section 3). -/
inductive AlertKind
  | CPU
  | MEMORY
  | DISK
deriving Repr, DecidableEq

/-- An alert, from the spec's data model (section 3). -/
structure Alert where
  kind : AlertKind
  observed_value : ℚ
  threshold : ℚ
deriving Repr, DecidableEq

/-- Threshold configuration plus cooldown, from the spec (sections 3 and 6). -/
structure ThresholdConfig where
  cpu_threshold : ℚ
  memory_threshold : ℚ
  disk_threshold : ℚ
  cooldown : ℚ
deriving Repr, DecidableEq

/-- Alert state, from the spec's data model (section 3). -/
structure AlertState where
  last_fired_at : Option ℚ
deriving Repr, DecidableEq

/-- The gauge fields of a snapshot that the threshold monitor inspects. -/
structure SnapshotGauges where
  cpu_percent : ℚ
  memory_percent : ℚ
  disk_percent : ℚ
deriving Repr, DecidableEq

/-- Modelled from the spec: `ThresholdMonitor.evaluate` (spec section 4.4)
is absent from src/app.py — no alerting code exists in the source file —
so it is modelled faithfully from the spec's algorithm: collect one
alert per exceeded threshold; if none exceeded return empty without
touching the state; if exceeded, fire the whole batch when
`last_fired_at` is unset or `now - last_fired_at ≥ cooldown` and record
`now`, otherwise return empty (the debounce). -/
def ThresholdMonitor.evaluate (cfg : ThresholdConfig) (st : AlertState)
    (snap : SnapshotGauges) (now : ℚ) : List Alert × AlertState :=
  let exceeded : List Alert :=
    (if cfg.cpu_threshold ≤ snap.cpu_percent then
        [{ kind := AlertKind.CPU, observed_value := snap.cpu_percent,
           threshold := cfg.cpu_threshold }] else []) ++
    (if cfg.memory_threshold ≤ snap.memory_percent then
        [{ kind := AlertKind.MEMORY, observed_value := snap.memory_percent,
           threshold := cfg.memory_threshold }] else []) ++
    (if cfg.disk_threshold ≤ snap.disk_percent then
        [{ kind := AlertKind.DISK, observed_value := snap.disk_percent,
           threshold := cfg.disk_threshold }] else [])
  if exceeded.isEmpty then ([], st)
  else
    match st.last_fired_at with
    | none => (exceeded, { last_fired_at := some now })
    | some t =>
        if cfg.cooldown ≤ now - t then (exceeded, { last_fired_at := some now })
        else ([], st)

/-- The update-timer state owned by `TaskManagerWindow`: the QTimer's
active flag and interval, plus `config.refresh_ms`. -/
structure TimerState where
  active : Bool
  interval : ℤ
  refresh_ms : ℤ
deriving Repr, DecidableEq

/-- `TaskManagerWindow._change_update_speed` (src/app.py lines 971-981):
`ms = 0` ("Paused") stops the timer; otherwise it stores the new refresh
interval, applies it to the timer, and starts the timer if it is not
already active. -/
def change_update_speed (t : TimerState) (ms : ℤ) : TimerState :=
  if ms = 0 then { t with active := false }
  else { active := true, interval := ms, refresh_ms := ms }

/-- The events the main window can receive that touch the sampling
schedule: a timer period elapsing, a speed change from the View menu,
and the manual "Refresh now" (F5) action which calls `_update_all`
directly (src/app.py lines 967-969). -/
inductive SchedulerEvent
  | timerElapse
  | changeSpeed (ms : ℤ)
  | refreshNow
deriving Repr, DecidableEq

/-- One event step.  Per Qt's timer semantics as used by
`_start_update_timer` (src/app.py lines 911-915), an elapsed period
delivers a `timeout` signal — and hence invokes `_update_all`,
publishing one refreshed set of values — only while the timer is
active; a stopped timer delivers nothing.  `refreshNow` invokes
`_update_all` unconditionally.  The second component counts the
publications performed by the event. -/
def schedStep (t : TimerState) (e : SchedulerEvent) : TimerState × ℕ :=
  match e with
  | SchedulerEvent.timerElapse => (t, if t.active then 1 else 0)
  | SchedulerEvent.changeSpeed ms => (change_update_speed t ms, 0)
  | SchedulerEvent.refreshNow => (t, 1)

/-- One accumulation step of the event run: apply the event and add its
publications to the running count. -/
def schedStepAcc (acc : TimerState × ℕ) (e : SchedulerEvent) : TimerState × ℕ :=
  let step := schedStep acc.1 e
  (step.1, acc.2 + step.2)

/-- Run a sequence of scheduler events, accumulating the number of
publications. -/
def schedRun (t : TimerState) (es : List SchedulerEvent) : TimerState × ℕ :=
  es.foldl schedStepAcc (t, 0)

/-- The value `update_history` pushes into `network_history` on a
completed cycle, as a function of the previously stored network counters
and the current reading (src/app.py lines 235-237): the combined
sent+received byte delta, converted to MB and scaled by 10, capped at
100; a failed psutil read contributes zero speeds. -/
def net_push_value (prev : NetCounters) (reading : Option NetCounters) : ℚ :=
  match reading with
  | none => min 100 (((0 : ℤ) : ℚ) / (1024 * 1024) * 10)
  | some io_counters =>
      min 100
        ((((io_counters.bytes_sent : ℤ) - (prev.bytes_sent : ℤ) +
           ((io_counters.bytes_recv : ℤ) - (prev.bytes_recv : ℤ)) : ℤ) : ℚ)
          / (1024 * 1024) * 10)

/-- The value `update_history` pushes into `disk_history` on a completed
cycle (src/app.py lines 231-233), as a function of the previously stored
disk counters and the current readings; a failed psutil read
contributes zero speeds. -/
def disk_push_value (prev : DiskCounters) (usage : Option DiskUsage)
    (reading : Option DiskCounters) : ℚ :=
  match usage, reading with
  | some _, some io_counters =>
      min 100
        ((((io_counters.read_bytes : ℤ) - (prev.read_bytes : ℤ) +
           ((io_counters.write_bytes : ℤ) - (prev.write_bytes : ℤ)) : ℤ) : ℚ)
          / (1024 * 1024) * 10)
  | _, _ => min 100 (((0 : ℤ) : ℚ) / (1024 * 1024) * 10)

/-- A concrete monitor state used in concrete evaluations: default
config, empty histories, previous network counters as given. -/
def netState (prev_sent prev_recv : ℕ) : MonitorState :=
  { config := {}
    cpu_history := []
    memory_history := []
    disk_history := []
    network_history := []
    net_io_prev := { bytes_sent := prev_sent, bytes_recv := prev_recv }
    disk_io_prev := { read_bytes := 0, write_bytes := 0 } }

/-- A concrete monitor state with window size 2, as produced by
`SystemMonitor.init` on that configuration: all histories pre-filled
with two zeros. -/
def smallState : MonitorState :=
  { config := { refresh_ms := 1000, graph_history_points := 2 }
    cpu_history := [0, 0]
    memory_history := [0, 0]
    disk_history := [0, 0]
    network_history := [0, 0]
    net_io_prev := { bytes_sent := 0, bytes_recv := 0 }
    disk_io_prev := { read_bytes := 0, write_bytes := 0 } }

/-- Concrete cycle readings: all psutil calls succeed; the network
counters advance by 2 MiB sent since the stored previous reading. -/
def smallReadings : CycleReadings :=
  { cpu := some 0
    memory := some { total := 0, available := 0, used := 0, percent := 0 }
    disk_usage := some { total := 0, used := 0, free := 0, percent := 0 }
    disk_io := some { read_bytes := 0, write_bytes := 0 }
    net_io := some { bytes_sent := 2097152, bytes_recv := 0 } }

/-- Concrete cycle readings in which `psutil.cpu_percent` raises while
every other reading is available. -/
def failReadings : CycleReadings :=
  { cpu := none
    memory := some { total := 0, available := 0, used := 0, percent := 0 }
    disk_usage := some { total := 0, used := 0, free := 0, percent := 0 }
    disk_io := some { read_bytes := 0, write_bytes := 0 }
    net_io := some { bytes_sent := 0, bytes_recv := 0 } }

/-- Concrete cycle readings in which `psutil.virtual_memory` raises
while every other reading is available. -/
def memFailReadings : CycleReadings :=
  { cpu := some 0
    memory := none
    disk_usage := some { total := 0, used := 0, free := 0, percent := 0 }
    disk_io := some { read_bytes := 0, write_bytes := 0 }
    net_io := some { bytes_sent := 0, bytes_recv := 0 } }

/-- All four history deques hold exactly `graph_history_points`
elements. -/
def history_lengths_ok (s : MonitorState) : Prop :=
  s.cpu_history.length = s.config.graph_history_points.toNat ∧
  s.memory_history.length = s.config.graph_history_points.toNat ∧
  s.disk_history.length = s.config.graph_history_points.toNat ∧
  s.network_history.length = s.config.graph_history_points.toNat

instance (s : MonitorState) : Decidable (history_lengths_ok s) := by
  unfold history_lengths_ok
  infer_instance

/-!  Helper lemmas about the deque behaviour. -/

lemma dequeAppend_length_eq (m : ℕ) (buf : List ℚ) (v : ℚ) (h : buf.length = m) :
    (dequeAppend m buf v).length = m := by
  unfold dequeAppend
  rw [if_neg (by omega)]
  rw [List.length_drop]
  simp [h]

lemma dequeAppend_full (m : ℕ) (buf : List ℚ) (v : ℚ) (hm : 1 ≤ m)
    (h : buf.length = m) : dequeAppend m buf v = buf.drop 1 ++ [v] := by
  unfold dequeAppend
  rw [if_neg (by omega)]
  have h1 : buf.length + 1 - m = 1 := by omega
  rw [h1, List.drop_append_of_le_length (by omega)]

lemma foldl_dequeAppend_len (m : ℕ) :
    ∀ (vs : List ℚ) (buf : List ℚ), buf.length = m →
    (vs.foldl (dequeAppend m) buf).length = m := by
  intro vs
  induction vs with
  | nil => intro buf h; simpa using h
  | cons v vs ih =>
      intro buf h
      rw [List.foldl_cons]
      exact ih _ (dequeAppend_length_eq m buf v h)

lemma foldl_dequeAppend_eq (m : ℕ) (hm : 1 ≤ m) :
    ∀ (vs : List ℚ) (buf : List ℚ), buf.length = m →
    vs.foldl (dequeAppend m) buf = (buf ++ vs).drop vs.length := by
  intro vs
  induction vs with
  | nil => intro buf h; simp
  | cons v vs ih =>
      intro buf h
      rw [List.foldl_cons, dequeAppend_full m buf v hm h]
      have hlen : (buf.drop 1 ++ [v]).length = m := by
        simp
        omega
      rw [ih _ hlen]
      have hd1 : (buf ++ v :: vs).drop 1 = buf.drop 1 ++ (v :: vs) :=
        List.drop_append_of_le_length (by omega)
      calc (buf.drop 1 ++ [v] ++ vs).drop vs.length
          = (buf.drop 1 ++ (v :: vs)).drop vs.length := by
            rw [List.append_assoc, List.singleton_append]
        _ = ((buf ++ v :: vs).drop 1).drop vs.length := by rw [hd1]
        _ = (buf ++ v :: vs).drop (1 + vs.length) := List.drop_drop _ _ _
        _ = (buf ++ v :: vs).drop (v :: vs).length := by
            rw [List.length_cons, Nat.add_comm]

lemma foldl_from_replicate (m : ℕ) (hm : 1 ≤ m) (vs : List ℚ)
    (hv : m ≤ vs.length) :
    vs.foldl (dequeAppend m) (List.replicate m 0) = vs.drop (vs.length - m) := by
  rw [foldl_dequeAppend_eq m hm vs _ (by simp)]
  have h1 : vs.length = m + (vs.length - m) := by omega
  have h2 : (List.replicate m (0 : ℚ) ++ vs).drop m = vs := by
    simp
  calc (List.replicate m (0 : ℚ) ++ vs).drop vs.length
      = (List.replicate m (0 : ℚ) ++ vs).drop (m + (vs.length - m)) := by rw [← h1]
    _ = ((List.replicate m (0 : ℚ) ++ vs).drop m).drop (vs.length - m) :=
        (List.drop_drop _ _ _).symm
    _ = vs.drop (vs.length - m) := by rw [h2]

lemma dequeAppend_getLast (m : ℕ) (buf : List ℚ) (v : ℚ) (hm : 1 ≤ m) :
    (dequeAppend m buf v).getLast? = some v := by
  unfold dequeAppend
  split
  · simp
  · rw [List.drop_append_of_le_length (by omega)]
    simp

lemma get_disk_info_same (s : MonitorState) (u : Option DiskUsage)
    (io_r : Option DiskCounters) :
    (get_disk_info s u io_r).2.cpu_history = s.cpu_history ∧
    (get_disk_info s u io_r).2.memory_history = s.memory_history ∧
    (get_disk_info s u io_r).2.disk_history = s.disk_history ∧
    (get_disk_info s u io_r).2.network_history = s.network_history ∧
    (get_disk_info s u io_r).2.config = s.config ∧
    (get_disk_info s u io_r).2.net_io_prev = s.net_io_prev := by
  cases u <;> cases io_r <;> simp [get_disk_info]

lemma get_network_info_same (s : MonitorState) (reading : Option NetCounters) :
    (get_network_info s reading).2.cpu_history = s.cpu_history ∧
    (get_network_info s reading).2.memory_history = s.memory_history ∧
    (get_network_info s reading).2.disk_history = s.disk_history ∧
    (get_network_info s reading).2.network_history = s.network_history ∧
    (get_network_info s reading).2.config = s.config ∧
    (get_network_info s reading).2.disk_io_prev = s.disk_io_prev := by
  cases reading <;> simp [get_network_info]

lemma getLast_isSome_of_length (l : List ℚ) (n : ℕ) (h : l.length = n)
    (hn : 1 ≤ n) : l.getLast?.isSome := by
  cases l with
  | nil => simp at h; omega
  | cons a as => simp [List.getLast?_isSome]

/-- Claim C1 counterexample: the claim says two samples 2 seconds apart
with the received-bytes counter going 1000 → 3000 yield a raw download
rate of (3000 − 1000) / 2 = 1000 bytes/sec.  The source's computation
(src/app.py line 211) is the bare counter difference with no division by
elapsed time: it yields 2000, which differs from the claimed value. -/
theorem C1_counterexample :
    (get_network_info (netState 0 1000)
        (some { bytes_sent := 0, bytes_recv := 3000 })).1.recv_speed = 2000 ∧
    (2000 : ℚ) ≠ (3000 - 1000) / 2 := by
  constructor
  · rfl
  · norm_num

/-- Claim C1 (amended): `get_network_info` returns the raw
cumulative-counter difference `curr − prev` as the speed, with no
division by elapsed time; under monotone counters (`curr ≥ prev`) the
value is non-negative, and samples with the received-bytes counter going
1000 → 3000 yield `recv_speed = 2000` whatever the elapsed time. -/
theorem C1_raw_delta_rate (s : MonitorState) (io_counters : NetCounters)
    (h : s.net_io_prev.bytes_recv ≤ io_counters.bytes_recv) :
    (get_network_info s (some io_counters)).1.recv_speed
        = (io_counters.bytes_recv : ℤ) - (s.net_io_prev.bytes_recv : ℤ) ∧
    0 ≤ (get_network_info s (some io_counters)).1.recv_speed := by
  refine ⟨rfl, ?_⟩
  simp only [get_network_info]
  rw [sub_nonneg]
  exact_mod_cast h

/-- Witness for C1's amended theorem at the concrete counters
1000 → 3000. -/
theorem C1_raw_delta_rate_witness :
    (get_network_info (netState 0 1000)
        (some { bytes_sent := 0, bytes_recv := 3000 })).1.recv_speed = 2000 ∧
    0 ≤ (get_network_info (netState 0 1000)
        (some { bytes_sent := 0, bytes_recv := 3000 })).1.recv_speed := by
  have h := C1_raw_delta_rate (netState 0 1000)
    { bytes_sent := 0, bytes_recv := 3000 } (by decide)
  exact ⟨by rw [h.1]; decide, h.2⟩

/-- Claim C2 counterexample: with the stored received-bytes counter at
1000 and the current reading at 500 (a counter reset, `c < p`), the
source returns the negative difference −500, not 0: no clamp exists
(src/app.py lines 210-211), refuting "the computed rate is 0, never
negative". -/
theorem C2_counterexample :
    (get_network_info (netState 0 1000)
        (some { bytes_sent := 0, bytes_recv := 500 })).1.recv_speed = -500 ∧
    (get_network_info (netState 0 1000)
        (some { bytes_sent := 0, bytes_recv := 500 })).1.recv_speed < 0 := by
  decide

/-- Claim C2 (amended): whenever the current received-bytes counter is
smaller than the stored previous one, `get_network_info` returns the
strictly negative difference `curr − prev`; the collector produces
negative rates on counter reset, with no clamping anywhere. -/
theorem C2_negative_on_reset (s : MonitorState) (io_counters : NetCounters)
    (h : io_counters.bytes_recv < s.net_io_prev.bytes_recv) :
    (get_network_info s (some io_counters)).1.recv_speed
        = (io_counters.bytes_recv : ℤ) - (s.net_io_prev.bytes_recv : ℤ) ∧
    (get_network_info s (some io_counters)).1.recv_speed < 0 := by
  refine ⟨rfl, ?_⟩
  simp only [get_network_info]
  rw [sub_neg]
  exact_mod_cast h

/-- Witness for C2's amended theorem at the concrete counters
1000 → 500. -/
theorem C2_negative_on_reset_witness :
    (get_network_info (netState 0 1000)
        (some { bytes_sent := 0, bytes_recv := 500 })).1.recv_speed
        = ((500 : ℕ) : ℤ) - ((1000 : ℕ) : ℤ) ∧
    (get_network_info (netState 0 1000)
        (some { bytes_sent := 0, bytes_recv := 500 })).1.recv_speed < 0 :=
  C2_negative_on_reset (netState 0 1000)
    { bytes_sent := 0, bytes_recv := 500 } (by decide)

/-- Claim C3 counterexample: the claim says that for every elapsed time
`t ≤ 0` the rate computation returns 0.  The source's computation takes
no elapsed-time input at all (src/app.py lines 204-224), so in a cycle
with zero elapsed time (a duplicate tick) it still returns the counter
difference: for counters 100 → 150 it returns 50, not 0. -/
theorem C3_counterexample :
    (get_network_info (netState 0 100)
        (some { bytes_sent := 0, bytes_recv := 150 })).1.recv_speed = 50 ∧
    (50 : ℤ) ≠ 0 := by
  decide

/-- Claim C3 (amended): the computation contains no division by elapsed
time — there is no elapsed-time input and no division branch to guard —
so its result is the plain counter difference for every pair of
readings, whatever the elapsed time (including `t ≤ 0`); only a psutil
failure produces the zero dictionary, with the stored counters left
unchanged. -/
theorem C3_no_elapsed_division :
    ∀ (s : MonitorState) (io_counters : NetCounters),
    (get_network_info s (some io_counters)).1.sent_speed
        = (io_counters.bytes_sent : ℤ) - (s.net_io_prev.bytes_sent : ℤ) ∧
    (get_network_info s (some io_counters)).1.recv_speed
        = (io_counters.bytes_recv : ℤ) - (s.net_io_prev.bytes_recv : ℤ) ∧
    (get_network_info s none).1
        = { sent_speed := 0, recv_speed := 0, total_sent := 0, total_recv := 0 } ∧
    (get_network_info s none).2 = s := by
  intro s io_counters
  exact ⟨rfl, rfl, rfl, rfl⟩

/-- Claim C8: for every capacity ≥ 1 and every sequence of more than
`capacity` pushed values on the zero-pre-filled window, the window's
length equals (hence never exceeds) the capacity, the final content is
exactly the most recent `capacity` pushed values (the oldest are
evicted), the average is the arithmetic mean of those values, and at
every intermediate point the window holds `capacity` elements (so the
average is always defined, including before any push). -/
theorem C8_rolling_window (cap : ℕ) (vs : List ℚ) (hc : 1 ≤ cap)
    (hv : cap < vs.length) :
    (vs.foldl (dequeAppend cap) (List.replicate cap 0)).length = cap ∧
    vs.foldl (dequeAppend cap) (List.replicate cap 0)
        = vs.drop (vs.length - cap) ∧
    windowAverage (vs.foldl (dequeAppend cap) (List.replicate cap 0))
        = (vs.drop (vs.length - cap)).sum / (cap : ℚ) ∧
    ∀ k : ℕ,
      ((vs.take k).foldl (dequeAppend cap) (List.replicate cap 0)).length = cap := by
  have hlen := foldl_dequeAppend_len cap vs (List.replicate cap 0) (by simp)
  have heq := foldl_from_replicate cap hc vs (le_of_lt hv)
  refine ⟨hlen, heq, ?_, ?_⟩
  · rw [windowAverage, heq]
    have hdl : (vs.drop (vs.length - cap)).length = cap := by
      rw [List.length_drop]
      omega
    rw [hdl]
  · intro k
    exact foldl_dequeAppend_len cap (vs.take k) (List.replicate cap 0) (by simp)

/-- Witness for C8 at capacity 2 and pushed values [1, 2, 3]. -/
theorem C8_rolling_window_witness :
    (([(1 : ℚ), 2, 3]).foldl (dequeAppend 2) (List.replicate 2 0)).length = 2 ∧
    ([(1 : ℚ), 2, 3]).foldl (dequeAppend 2) (List.replicate 2 0)
        = ([(1 : ℚ), 2, 3]).drop (([(1 : ℚ), 2, 3]).length - 2) ∧
    windowAverage (([(1 : ℚ), 2, 3]).foldl (dequeAppend 2) (List.replicate 2 0))
        = (([(1 : ℚ), 2, 3]).drop (([(1 : ℚ), 2, 3]).length - 2)).sum / (2 : ℚ) ∧
    ∀ k : ℕ,
      ((([(1 : ℚ), 2, 3]).take k).foldl (dequeAppend 2) (List.replicate 2 0)).length = 2 :=
  C8_rolling_window 2 [1, 2, 3] (by norm_num) (by norm_num)

lemma update_history_success (s : MonitorState) (r : CycleReadings)
    (cpu : ℚ) (mem : MemoryStats)
    (hc : r.cpu = some cpu) (hm2 : r.memory = some mem) :
    (update_history s r).1.config = s.config ∧
    (update_history s r).1.cpu_history
        = dequeAppend s.config.graph_history_points.toNat s.cpu_history cpu ∧
    (update_history s r).1.memory_history
        = dequeAppend s.config.graph_history_points.toNat s.memory_history mem.percent ∧
    (update_history s r).1.disk_history
        = dequeAppend s.config.graph_history_points.toNat s.disk_history
            (disk_push_value s.disk_io_prev r.disk_usage r.disk_io) ∧
    (update_history s r).1.network_history
        = dequeAppend s.config.graph_history_points.toNat s.network_history
            (net_push_value s.net_io_prev r.net_io) ∧
    (update_history s r).2 = none := by
  cases hd : r.disk_usage <;> cases hdi : r.disk_io <;> cases hn : r.net_io <;>
    simp [update_history, hc, hm2, hd, hdi, hn, get_disk_info, get_network_info,
          disk_push_value, net_push_value]

/-- Claim C4 counterexample: starting from the pre-filled window
`[0, 0]` (capacity 2), one cycle whose network counters advance by
2 MiB pushes the combined scaled value 20; the value the performance tab
reads back and publishes, `network_history[-1]`, is that raw value 20 —
not the window's smoothed average, which is (0 + 20) / 2 = 10. -/
theorem C4_counterexample :
    published_network_value (update_history smallState smallReadings).1 = some 20 ∧
    windowAverage (update_history smallState smallReadings).1.network_history = 10 ∧
    (20 : ℚ) ≠ 10 := by
  have h := update_history_success smallState smallReadings 0
    { total := 0, available := 0, used := 0, percent := 0 } rfl rfl
  have hv : net_push_value smallState.net_io_prev smallReadings.net_io = 20 := by
    simp only [smallState, smallReadings, net_push_value]
    norm_num
  have hdq : dequeAppend smallState.config.graph_history_points.toNat
      smallState.network_history 20 = [0, 20] := by decide
  refine ⟨?_, ?_, by norm_num⟩
  · rw [published_network_value, h.2.2.2.2.1, hv, hdq]
    decide
  · rw [windowAverage, h.2.2.2.2.1, hv, hdq]
    norm_num

/-- Claim C4 (amended): on every completed cycle, `update_history`
pushes one combined scaled network-activity value — derived from the
raw sent+received counter deltas — into the single `network_history`
deque, and the value the performance tab publishes to the network graph
is `network_history[-1]`, i.e. exactly that cycle's raw pushed value,
not a smoothed average of the window.  (There are no separate download
and upload windows, and no snapshot field holds a window mean.) -/
theorem C4_published_is_latest_raw (s : MonitorState) (r : CycleReadings)
    (cpu : ℚ) (mem : MemoryStats)
    (hc : r.cpu = some cpu) (hm2 : r.memory = some mem)
    (hg : 1 ≤ s.config.graph_history_points.toNat) :
    published_network_value (update_history s r).1
        = some (net_push_value s.net_io_prev r.net_io) := by
  have h := update_history_success s r cpu mem hc hm2
  rw [published_network_value, h.2.2.2.2.1]
  exact dequeAppend_getLast _ _ _ hg

/-- Witness for C4's amended theorem at the concrete 2 MiB cycle. -/
theorem C4_published_is_latest_raw_witness :
    published_network_value (update_history smallState smallReadings).1
        = some (net_push_value smallState.net_io_prev smallReadings.net_io) :=
  C4_published_is_latest_raw smallState smallReadings 0
    { total := 0, available := 0, used := 0, percent := 0 }
    rfl rfl (by decide)

/-- Claim C6 counterexample: a failure of the CPU read
(`psutil.cpu_percent`, which `update_history` calls with no try/except
around it, src/app.py line 228) propagates out of `update_history`: the
cycle aborts with an exception and no history is updated — the
sampling cycle does not complete and no field is refreshed, refuting
"no sub-metric read failure ever aborts the sampling cycle". -/
theorem C6_counterexample :
    (update_history smallState failReadings).1 = smallState ∧
    (update_history smallState failReadings).2 ≠ none := by
  decide

/-- Claim C6 (amended): failures are handled per sub-metric only for
disk and network — `get_disk_info` and `get_network_info` swallow their
own psutil failures (without logging) and return all-zero values, and a
cycle whose CPU and memory reads succeed completes whatever happens to
the disk and network reads; but a CPU or memory read failure propagates
out of `update_history` and aborts the cycle: a CPU failure leaves the
monitor state entirely unchanged, while a memory failure leaves the CPU
value already appended to `cpu_history` (Python mutates the deques in
order, src/app.py lines 228-229) and the other histories untouched; the
exception is caught only by the UI layer's outer handler. -/
theorem C6_partial_degradation (s : MonitorState) (r : CycleReadings)
    (cpu : ℚ) (mem : MemoryStats)
    (hc : r.cpu = some cpu) (hm2 : r.memory = some mem) :
    (update_history s r).2 = none ∧
    (∀ io_r : Option DiskCounters, (get_disk_info s none io_r).1
        = { total := 0, used := 0, free := 0, percent := 0,
            read_speed := 0, write_speed := 0 }) ∧
    (∀ r2 : CycleReadings, r2.cpu = none →
        (update_history s r2).1 = s ∧ (update_history s r2).2 ≠ none) ∧
    (∀ (r3 : CycleReadings) (c : ℚ), r3.cpu = some c → r3.memory = none →
        (update_history s r3).1
          = { s with cpu_history := (dequeAppend
                s.config.graph_history_points.toNat s.cpu_history c) } ∧
        (update_history s r3).2 ≠ none) := by
  refine ⟨(update_history_success s r cpu mem hc hm2).2.2.2.2.2, ?_, ?_, ?_⟩
  · intro io_r
    cases io_r <;> rfl
  · intro r2 h2
    constructor
    · simp [update_history, h2]
    · simp [update_history, h2]
  · intro r3 c hc3 hm3
    constructor
    · simp [update_history, hc3, hm3]
    · simp [update_history, hc3, hm3]

/-- Witness for C6's amended theorem: a fully successful cycle
completes; the CPU-failure cycle aborts with the state unchanged; the
memory-failure cycle aborts with only the CPU value appended. -/
theorem C6_partial_degradation_witness :
    (update_history smallState smallReadings).2 = none ∧
    (update_history smallState failReadings).1 = smallState ∧
    (update_history smallState failReadings).2 ≠ none ∧
    (update_history smallState memFailReadings).1
      = { smallState with cpu_history := (dequeAppend
            smallState.config.graph_history_points.toNat
            smallState.cpu_history 0) } ∧
    (update_history smallState memFailReadings).2 ≠ none := by
  have h := C6_partial_degradation smallState smallReadings 0
    { total := 0, available := 0, used := 0, percent := 0 } rfl rfl
  exact ⟨h.1, (h.2.2.1 failReadings rfl).1, (h.2.2.1 failReadings rfl).2,
         (h.2.2.2 memFailReadings 0 rfl rfl).1,
         (h.2.2.2 memFailReadings 0 rfl rfl).2⟩

/-- Claim C7 counterexample: `AppConfig` performs no validation.  With
the out-of-range value `graph_history_points = 0` (a non-positive
rolling-window size), construction succeeds and the resulting instance
is accepted by `SystemMonitor.__init__`, producing a usable monitor —
nothing is rejected with a validation error. -/
theorem C7_counterexample :
    (makeAppConfig 1000 0).graph_history_points = 0 ∧
    SystemMonitor.init (makeAppConfig 1000 0)
        { bytes_sent := 0, bytes_recv := 0 }
        { read_bytes := 0, write_bytes := 0 }
      = some { config := makeAppConfig 1000 0
               cpu_history := []
               memory_history := []
               disk_history := []
               network_history := []
               net_io_prev := { bytes_sent := 0, bytes_recv := 0 }
               disk_io_prev := { read_bytes := 0, write_bytes := 0 } } := by
  decide

/-- Claim C7 (amended): `AppConfig` is a plain dataclass with no
validation hook: construction succeeds for every field value — it
simply stores what it is given, including non-positive window sizes —
and contains no threshold fields at all; only a negative window size
fails later, inside `deque(maxlen=...)` in `SystemMonitor.__init__`,
not at configuration construction and not as a descriptive validation
error. -/
theorem C7_no_validation (refresh g : ℤ) :
    (makeAppConfig refresh g).refresh_ms = refresh ∧
    (makeAppConfig refresh g).graph_history_points = g ∧
    (0 ≤ g →
      (SystemMonitor.init (makeAppConfig refresh g)
        { bytes_sent := 0, bytes_recv := 0 }
        { read_bytes := 0, write_bytes := 0 }).isSome) := by
  refine ⟨rfl, rfl, ?_⟩
  intro h
  rw [SystemMonitor.init, if_neg (by simp [makeAppConfig]; omega)]
  rfl

/-- Witness for C7's amended theorem at the out-of-range window size 0. -/
theorem C7_no_validation_witness :
    (makeAppConfig 1000 0).refresh_ms = 1000 ∧
    (makeAppConfig 1000 0).graph_history_points = 0 ∧
    (SystemMonitor.init (makeAppConfig 1000 0)
        { bytes_sent := 0, bytes_recv := 0 }
        { read_bytes := 0, write_bytes := 0 }).isSome := by
  have h := C7_no_validation 1000 0
  exact ⟨h.1, h.2.1, h.2.2 (by norm_num)⟩

/-- Claim C10: each of the monitor's four history deques holds exactly
`graph_history_points` elements at every point of its lifetime: they
are pre-filled with that many zeros by `__init__`; every
`update_history` outcome (completed or aborted) preserves the count;
when at least one element exists the most recent element of every
history is always defined; and a completed call appends exactly one
element to each deque while evicting the oldest. -/
theorem C10_history_invariant :
    (∀ (config : AppConfig) (net0 : NetCounters) (disk0 : DiskCounters)
        (s : MonitorState),
        SystemMonitor.init config net0 disk0 = some s → history_lengths_ok s) ∧
    (∀ (s : MonitorState) (r : CycleReadings),
        history_lengths_ok s → history_lengths_ok (update_history s r).1) ∧
    (∀ (s : MonitorState), history_lengths_ok s →
        1 ≤ s.config.graph_history_points.toNat →
        s.cpu_history.getLast?.isSome ∧ s.memory_history.getLast?.isSome ∧
        s.disk_history.getLast?.isSome ∧ s.network_history.getLast?.isSome) ∧
    (∀ (s : MonitorState) (r : CycleReadings) (cpu : ℚ) (mem : MemoryStats),
        history_lengths_ok s → 1 ≤ s.config.graph_history_points.toNat →
        r.cpu = some cpu → r.memory = some mem →
        (update_history s r).1.cpu_history = s.cpu_history.drop 1 ++ [cpu] ∧
        (update_history s r).1.memory_history
            = s.memory_history.drop 1 ++ [mem.percent] ∧
        (update_history s r).1.disk_history
            = s.disk_history.drop 1
                ++ [disk_push_value s.disk_io_prev r.disk_usage r.disk_io] ∧
        (update_history s r).1.network_history
            = s.network_history.drop 1
                ++ [net_push_value s.net_io_prev r.net_io]) := by
  refine ⟨?_, ?_, ?_, ?_⟩
  · intro config net0 disk0 s h
    rw [SystemMonitor.init] at h
    split at h
    · exact absurd h (by simp)
    · rw [Option.some_inj] at h
      subst h
      refine ⟨?_, ?_, ?_, ?_⟩ <;> simp
  · intro s r hok
    obtain ⟨h1, h2, h3, h4⟩ := hok
    cases hc : r.cpu with
    | none =>
        refine ⟨?_, ?_, ?_, ?_⟩ <;> simp [update_history, hc, h1, h2, h3, h4]
    | some cpu =>
        cases hm2 : r.memory with
        | none =>
            refine ⟨?_, ?_, ?_, ?_⟩ <;>
              simp [update_history, hc, hm2, h1, h2, h3, h4,
                    dequeAppend_length_eq _ _ _ h1]
        | some mem =>
            have h := update_history_success s r cpu mem hc hm2
            refine ⟨?_, ?_, ?_, ?_⟩ <;>
              rw [h.1] <;>
              first
                | rw [h.2.1, dequeAppend_length_eq _ _ _ h1]
                | rw [h.2.2.1, dequeAppend_length_eq _ _ _ h2]
                | rw [h.2.2.2.1, dequeAppend_length_eq _ _ _ h3]
                | rw [h.2.2.2.2.1, dequeAppend_length_eq _ _ _ h4]
  · intro s hok hg
    obtain ⟨h1, h2, h3, h4⟩ := hok
    exact ⟨getLast_isSome_of_length _ _ h1 hg, getLast_isSome_of_length _ _ h2 hg,
           getLast_isSome_of_length _ _ h3 hg, getLast_isSome_of_length _ _ h4 hg⟩
  · intro s r cpu mem hok hg hc hm2
    obtain ⟨h1, h2, h3, h4⟩ := hok
    have h := update_history_success s r cpu mem hc hm2
    refine ⟨?_, ?_, ?_, ?_⟩
    · rw [h.2.1, dequeAppend_full _ _ _ hg h1]
    · rw [h.2.2.1, dequeAppend_full _ _ _ hg h2]
    · rw [h.2.2.2.1, dequeAppend_full _ _ _ hg h3]
    · rw [h.2.2.2.2.1, dequeAppend_full _ _ _ hg h4]

/-- Witness for C10 at the concrete capacity-2 monitor and one
successful cycle. -/
theorem C10_history_invariant_witness :
    history_lengths_ok (update_history smallState smallReadings).1 ∧
    smallState.network_history.getLast?.isSome := by
  have h := C10_history_invariant
  exact ⟨h.2.1 smallState smallReadings (by decide),
         (h.2.2.1 smallState (by decide) (by decide)).2.2.2⟩

/-- Claim C5: the cooldown debounce of the threshold monitor (modelled
from the spec, section 4.4, since no alerting code exists in
src/app.py): whenever `last_fired_at` is set and less than the cooldown
has elapsed since it, `evaluate` returns the empty batch; and in the
concrete scenario cpu = 95, threshold = 90, cooldown = 60, the first
call fires one CPU alert, a second call 10 s later returns empty, and a
third call 61 s after the first fires the CPU alert again. -/
theorem C5_cooldown_debounce :
    (∀ (cfg : ThresholdConfig) (st : AlertState) (snap : SnapshotGauges)
        (now t : ℚ), st.last_fired_at = some t → now - t < cfg.cooldown →
        (ThresholdMonitor.evaluate cfg st snap now).1 = []) ∧
    ((ThresholdMonitor.evaluate
        { cpu_threshold := 90, memory_threshold := 96, disk_threshold := 96,
          cooldown := 60 }
        { last_fired_at := none }
        { cpu_percent := 95, memory_percent := 0, disk_percent := 0 } 0).1
      = [{ kind := AlertKind.CPU, observed_value := 95, threshold := 90 }] ∧
     (ThresholdMonitor.evaluate
        { cpu_threshold := 90, memory_threshold := 96, disk_threshold := 96,
          cooldown := 60 }
        { last_fired_at := some 0 }
        { cpu_percent := 95, memory_percent := 0, disk_percent := 0 } 10).1
      = [] ∧
     (ThresholdMonitor.evaluate
        { cpu_threshold := 90, memory_threshold := 96, disk_threshold := 96,
          cooldown := 60 }
        { last_fired_at := some 0 }
        { cpu_percent := 95, memory_percent := 0, disk_percent := 0 } 61).1
      = [{ kind := AlertKind.CPU, observed_value := 95, threshold := 90 }]) := by
  constructor
  · intro cfg st snap now t hst hlt
    unfold ThresholdMonitor.evaluate
    simp only [hst]
    rw [if_neg (show ¬ cfg.cooldown ≤ now - t from by linarith)]
    rw [ite_self]
  · refine ⟨?_, ?_, ?_⟩ <;> norm_num [ThresholdMonitor.evaluate]

/-- Witness for C5's debounce conjunct: 10 s after a firing at time 0,
with a 60 s cooldown, the monitor stays silent. -/
theorem C5_cooldown_debounce_witness :
    (ThresholdMonitor.evaluate
        { cpu_threshold := 90, memory_threshold := 96, disk_threshold := 96,
          cooldown := 60 }
        { last_fired_at := some 0 }
        { cpu_percent := 95, memory_percent := 0, disk_percent := 0 } 10).1 = [] :=
  C5_cooldown_debounce.1
    { cpu_threshold := 90, memory_threshold := 96, disk_threshold := 96,
      cooldown := 60 }
    { last_fired_at := some 0 }
    { cpu_percent := 95, memory_percent := 0, disk_percent := 0 } 10 0 rfl
    (by norm_num)

lemma schedRun_stopped : ∀ (es : List SchedulerEvent) (t0 : TimerState) (k : ℕ),
    t0.active = false → (∀ e ∈ es, e = SchedulerEvent.timerElapse) →
    es.foldl schedStepAcc (t0, k) = (t0, k) := by
  intro es
  induction es with
  | nil => intro t0 k _ _; rfl
  | cons e es ih =>
      intro t0 k h hall
      have he : e = SchedulerEvent.timerElapse := hall e (List.mem_cons_self e es)
      subst he
      rw [List.foldl_cons]
      have happ : schedStepAcc (t0, k) SchedulerEvent.timerElapse = (t0, k) := by
        simp [schedStepAcc, schedStep, h]
      rw [happ]
      exact ih t0 k h (fun e hmem => hall e (List.mem_cons_of_mem _ hmem))

/-- Claim C9: after the update timer is stopped (`_change_update_speed`
with ms = 0, the "Paused" speed), any number of elapsed timer periods
produces zero further publications and the timer stays inactive, until
a positive speed starts it again; while stopped, the manual
"Refresh now" action still performs a one-off update. -/
theorem C9_stop_no_publish (t : TimerState) (es : List SchedulerEvent)
    (h : ∀ e ∈ es, e = SchedulerEvent.timerElapse) :
    (schedRun (change_update_speed t 0) es).2 = 0 ∧
    (schedRun (change_update_speed t 0) es).1.active = false ∧
    (schedStep (change_update_speed t 0) SchedulerEvent.refreshNow).2 = 1 ∧
    (∀ ms : ℤ, ms ≠ 0 →
      (change_update_speed (change_update_speed t 0) ms).active = true) := by
  have hstop : (change_update_speed t 0).active = false := by
    simp [change_update_speed]
  have hrun := schedRun_stopped es (change_update_speed t 0) 0 hstop h
  rw [schedRun, hrun]
  refine ⟨rfl, hstop, rfl, ?_⟩
  intro ms hms
  simp [change_update_speed, hms]

/-- Witness for C9: a running timer is paused, two periods elapse with
no publication, and speed 1000 restarts it. -/
theorem C9_stop_no_publish_witness :
    (schedRun (change_update_speed ⟨true, 1000, 1000⟩ 0)
      [SchedulerEvent.timerElapse, SchedulerEvent.timerElapse]).2 = 0 ∧
    (schedRun (change_update_speed ⟨true, 1000, 1000⟩ 0)
      [SchedulerEvent.timerElapse, SchedulerEvent.timerElapse]).1.active = false ∧
    (schedStep (change_update_speed ⟨true, 1000, 1000⟩ 0)
      SchedulerEvent.refreshNow).2 = 1 ∧
    (∀ ms : ℤ, ms ≠ 0 →
      (change_update_speed (change_update_speed ⟨true, 1000, 1000⟩ 0)
        ms).active = true) :=
  C9_stop_no_publish ⟨true, 1000, 1000⟩
    [SchedulerEvent.timerElapse, SchedulerEvent.timerElapse] (by decide)

end TaskManager
